import Mathlib

/-!
Verification development for the `tgv` terminal genome viewer.

The repository slice under scrutiny is `src/app.rs`: the `App` object, its
main loop (`run`), the draw entry point (`draw`), the orderly shutdown
(`close`) and the `Widget::render` implementation that decides which screen
bands are painted for a frame.

The `states` module (the controller `State`, its data cache with
generation-gated staleness reconciliation, and `main.rs`) is not part of the
source slice; where a claim depends on it, the corresponding definitions are
modelled from the specification and say so in their doc comment.
-/

namespace Tgv

/-! ## Payload kinds, fetch requests and the data cache (spec-modelled) -/

/-- The closed set of cached payload kinds (spec section 3: `DataPayload<Kind>`
with Kind ranging over Alignment, Sequence, Track). -/
inductive Kind
  | alignment
  | sequence
  | track
deriving DecidableEq, Repr

/-- A fetched payload for one Kind: the contig and the half-open range it
actually covers, plus opaque content. -/
structure DataPayload where
  contig : String
  start : Nat
  stop : Nat
  content : List String
deriving DecidableEq, Repr

/-- A fetch request: (contig, range, Kind, generation) as in spec section 3. -/
structure FetchRequest where
  contig : String
  start : Nat
  stop : Nat
  kind : Kind
  generation : Nat
deriving DecidableEq, Repr

/-- One cache slot: the latest recorded generation for its Kind and the
currently installed payload, if any. -/
structure KindSlot where
  latestGeneration : Nat := 0
  payload : Option DataPayload := none
deriving DecidableEq, Repr

/-- The data cache: one slot per payload Kind. -/
structure Cache where
  alignment : KindSlot := {}
  sequence : KindSlot := {}
  track : KindSlot := {}
deriving DecidableEq, Repr

/-- Slot lookup by Kind. -/
def Cache.get (c : Cache) : Kind → KindSlot
  | Kind.alignment => c.alignment
  | Kind.sequence => c.sequence
  | Kind.track => c.track

/-- Slot replacement by Kind. -/
def Cache.set (c : Cache) : Kind → KindSlot → Cache
  | Kind.alignment, sl => { c with alignment := sl }
  | Kind.sequence, sl => { c with sequence := sl }
  | Kind.track, sl => { c with track := sl }

/-- Modelled from the spec: `record_fetch_started(cache, request)` stores the
outstanding generation per Kind (spec section 4.2); the states module is not
under src/. -/
def record_fetch_started (c : Cache) (r : FetchRequest) : Cache :=
  c.set r.kind { c.get r.kind with latestGeneration := r.generation }

/-- Modelled from the spec: `apply_fetch_result(cache, request, result)`
(spec section 4.2); the states module is not under src/. A result whose
generation is older than the latest recorded generation for its Kind is
discarded silently; otherwise a success replaces the slot's payload wholesale
and a failure leaves the slot as-is and appends an ErrorLog entry. -/
def apply_fetch_result (c : Cache) (errors : List String) (r : FetchRequest)
    (result : Except String DataPayload) : Cache × List String :=
  if r.generation < (c.get r.kind).latestGeneration then
    (c, errors)
  else
    match result with
    | Except.ok p => (c.set r.kind { c.get r.kind with payload := some p }, errors)
    | Except.error e => (c, errors ++ [e])

theorem Cache.get_set_same (c : Cache) (k : Kind) (sl : KindSlot) :
    (c.set k sl).get k = sl := by
  cases k <;> rfl

/-- C1 helper: the cache after both fetches have been recorded, in generation
order. -/
def recordedBoth (c : Cache) (r1 r2 : FetchRequest) : Cache :=
  record_fetch_started (record_fetch_started c r1) r2

/-- C1 helper: apply two fetch completions in sequence, threading the cache and
the error log. -/
def applyBoth (c : Cache) (es : List String) (ra : FetchRequest)
    (resa : Except String DataPayload) (rb : FetchRequest)
    (resb : Except String DataPayload) : Cache × List String :=
  apply_fetch_result (apply_fetch_result c es ra resa).1
    (apply_fetch_result c es ra resa).2 rb resb

/-- C1: for any two recorded fetches of the same Kind with generations
g1 < g2, applying both successful completions in either order leaves the
slot for that Kind holding the generation-g2 payload; and any result whose
generation is older than the latest recorded generation for its Kind is
discarded silently, leaving cache and error log unchanged. -/
theorem c1_generation_gating (r1 r2 : FetchRequest) (p1 p2 : DataPayload)
    (c : Cache) (es : List String)
    (hk : r1.kind = r2.kind) (hg : r1.generation < r2.generation) :
    ((applyBoth (recordedBoth c r1 r2) es r1 (Except.ok p1) r2 (Except.ok p2)).1.get
        r2.kind).payload = some p2
    ∧ ((applyBoth (recordedBoth c r1 r2) es r2 (Except.ok p2) r1 (Except.ok p1)).1.get
        r2.kind).payload = some p2
    ∧ (∀ (c' : Cache) (es' : List String) (r : FetchRequest)
        (res : Except String DataPayload),
        r.generation < (c'.get r.kind).latestGeneration →
        apply_fetch_result c' es' r res = (c', es')) := by
  refine ⟨?_, ?_, ?_⟩
  · simp [applyBoth, recordedBoth, record_fetch_started, apply_fetch_result, hk,
      Cache.get_set_same, hg, Nat.lt_irrefl]
  · simp [applyBoth, recordedBoth, record_fetch_started, apply_fetch_result, hk,
      Cache.get_set_same, hg, Nat.lt_irrefl]
  · intro c' es' r res h
    simp [apply_fetch_result, h]

/-- C1 witness data: a generation-1 alignment request. -/
def reqG1 : FetchRequest := ⟨"chr1", 0, 100, Kind.alignment, 1⟩

/-- C1 witness data: a generation-2 alignment request. -/
def reqG2 : FetchRequest := ⟨"chr1", 200, 300, Kind.alignment, 2⟩

/-- C1 witness data: the generation-1 payload. -/
def payloadG1 : DataPayload := ⟨"chr1", 0, 150, ["old"]⟩

/-- C1 witness data: the generation-2 payload. -/
def payloadG2 : DataPayload := ⟨"chr1", 200, 350, ["new"]⟩

/-- C1 witness: the generation-gating theorem instantiated at concrete
requests with generations 1 < 2 on an empty cache. -/
theorem c1_generation_gating_witness :
    ((applyBoth (recordedBoth {} reqG1 reqG2) [] reqG1 (Except.ok payloadG1) reqG2
        (Except.ok payloadG2)).1.get reqG2.kind).payload = some payloadG2
    ∧ ((applyBoth (recordedBoth {} reqG1 reqG2) [] reqG2 (Except.ok payloadG2) reqG1
        (Except.ok payloadG1)).1.get reqG2.kind).payload = some payloadG2
    ∧ (∀ (c' : Cache) (es' : List String) (r : FetchRequest)
        (res : Except String DataPayload),
        r.generation < (c'.get r.kind).latestGeneration →
        apply_fetch_result c' es' r res = (c', es')) :=
  c1_generation_gating reqG1 reqG2 payloadG1 payloadG2 {} [] rfl (by decide)

/-! ## The controller state visible to `app.rs` -/

/-- Input modes (src module `models::mode`): Normal, Command, Help. -/
inductive InputMode
  | normal
  | command
  | help
deriving DecidableEq, Repr

/-- A terminal rectangle, as `ratatui::layout::Rect`. -/
structure Rect where
  x : Nat := 0
  y : Nat := 0
  width : Nat := 0
  height : Nat := 0
deriving DecidableEq, Repr

/-- The settings fields `app.rs` reads: `test_mode`, `bam_path`, `reference`
and `initial_state_messages` (the message type is opaque here). -/
structure Settings where
  test_mode : Bool := false
  bam_path : Option String := none
  reference : Option String := none
  initial_state_messages : List String := []
deriving DecidableEq, Repr

/-- Modelled from the spec: the viewing window holds a genomic start, the
zoom factor (bases per column) queried by `zoom()`, and whether the window is
base-wise (`is_basewise()`); the states module is not under src/. -/
structure ViewingWindow where
  start : Nat := 0
  zoom : Nat := 1
  basewise : Bool := true
deriving DecidableEq, Repr

/-- A half-open genomic interval, the derived `ViewingRegion`. -/
structure Region where
  start : Nat
  stop : Nat
deriving DecidableEq, Repr

/-- Modelled from the spec: the active contig context — length, optional
cytoband list and the index of the currently visible band; the states module
is not under src/. -/
structure ContigContext where
  length : Nat
  cytobands : Option (List String) := none
  current_cytoband_index : Option Nat := none
deriving DecidableEq, Repr

/-- The per-Kind payload slots read by `render` as `state.data`. -/
structure StateData where
  alignment : Option DataPayload := none
  sequence : Option DataPayload := none
  track : Option DataPayload := none
deriving DecidableEq, Repr

/-- Modelled from the spec: the controller `State` fields that `app.rs`
reads or the spec describes (exit flag, settings, input mode, payload slots,
error log, command register, viewing window, contig context, frame area and
the adapters-closed shutdown flag); the states module is not under src/. -/
structure State where
  exit : Bool := false
  settings : Settings := {}
  input_mode : InputMode := InputMode.normal
  data : StateData := {}
  errors : List String := []
  command_mode_register : String := ""
  viewing_window : Option ViewingWindow := none
  contig : Option ContigContext := none
  frame_area : Rect := {}
  adapters_closed : Bool := false
deriving DecidableEq, Repr

/-- Modelled from the spec: `initialized()` is whether the initial window and
contig context have been established (the panic message in `draw` reads "The
initial window is not initialized"). -/
def State.initialized (s : State) : Bool :=
  s.viewing_window.isSome && s.contig.isSome

/-- Modelled from the spec: `contig_length()` of the active contig. -/
def State.contig_length (s : State) : Option Nat :=
  s.contig.map (fun c => c.length)

/-- Modelled from the spec: the active contig's cytoband list, if any. -/
def State.cytobands (s : State) : Option (List String) :=
  s.contig.bind (fun c => c.cytobands)

/-- Modelled from the spec: `current_cytoband_index()`, which fails (outer
`none`, unwrap panic) without a contig context and otherwise yields the
optional index of the currently visible band. -/
def State.current_cytoband_index (s : State) : Option (Option Nat) :=
  s.contig.map (fun c => c.current_cytoband_index)

/-- Modelled from the spec: the derived `ViewingRegion` — a pure function of
the viewing window, frame width and contig length, clamped to the contig. -/
def State.viewing_region (s : State) : Option Region :=
  match s.viewing_window, s.contig with
  | some w, some c =>
      some ⟨min w.start c.length, min (w.start + w.zoom * s.frame_area.width) c.length⟩
  | _, _ => none

/-- Modelled from the spec: `update_frame_area` records the current frame
rectangle on the state. -/
def update_frame_area (s : State) (r : Rect) : State :=
  { s with frame_area := r }

/-! ## The widget render (app.rs lines 109-205) -/

/-- Minimum usable frame width (app.rs line 109). -/
def MIN_AREA_WIDTH : Nat := 10

/-- Minimum usable frame height (app.rs line 110). -/
def MIN_AREA_HEIGHT : Nat := 6

/-- The screen bands `render` can paint, one per external painting routine
invoked in app.rs. -/
inductive Band
  | cytobands
  | coordinates
  | coverage
  | alignment
  | sequence
  | sequence2x
  | track
  | console
  | error
  | help
deriving DecidableEq, Repr

/-- Panics `render`/`draw` can raise: the uninitialized-draw contract
violation, an `unwrap()` on an absent state accessor, and out-of-bounds
cytoband indexing. -/
inductive Panic
  | uninitialized_draw
  | state_unwrap
  | cytoband_index
deriving DecidableEq, Repr

/-- The cytoband block (app.rs lines 138-149): `current_cytoband_index()` is
unwrapped unconditionally; when both the cytoband list and the index are
present the band is painted, indexing the list (a panic when out of bounds). -/
def cytobandBands (s : State) : Except Panic (List Band) :=
  match s.current_cytoband_index with
  | none => Except.error Panic.state_unwrap
  | some idx =>
      match s.cytobands, idx with
      | some cbs, some i =>
          if i < cbs.length then Except.ok [Band.cytobands]
          else Except.error Panic.cytoband_index
      | _, _ => Except.ok []

/-- The alignment/coverage block (app.rs lines 153-164): gated on
`bam_path` being set and `zoom() <= State::MAX_ZOOM_TO_DISPLAY_ALIGNMENTS`
(the constant lives in the states module, so it is a parameter here); a
`None` payload slot is silently skipped. -/
def alignmentBands (maxZoom : Nat) (s : State) (w : ViewingWindow) : List Band :=
  if s.settings.bam_path.isSome = true ∧ w.zoom ≤ maxZoom then
    match s.data.alignment with
    | some _ => [Band.coverage, Band.alignment]
    | none => []
  else []

/-- The sequence sub-block (app.rs lines 167-182): base-wise windows use the
plain sequence renderer, zoom exactly 2 the 2x renderer; a `None` payload
slot is silently skipped. -/
def sequenceBands (s : State) (w : ViewingWindow) : List Band :=
  if w.basewise = true then
    match s.data.sequence with
    | some _ => [Band.sequence]
    | none => []
  else if w.zoom = 2 then
    match s.data.sequence with
    | some _ => [Band.sequence2x]
    | none => []
  else []

/-- The track sub-block (app.rs lines 184-195): a `None` payload slot is
silently skipped. -/
def trackBands (s : State) : List Band :=
  match s.data.track with
  | some _ => [Band.track]
  | none => []

/-- The reference-gated block (app.rs lines 166-196): sequence and track are
painted only when `settings.reference` is set. -/
def referenceBands (s : State) (w : ViewingWindow) : List Band :=
  if s.settings.reference.isSome = true then sequenceBands s w ++ trackBands s
  else []

/-- The console block (app.rs lines 198-200): painted only in Command mode. -/
def consoleBands (s : State) : List Band :=
  if s.input_mode = InputMode.command then [Band.console] else []

/-- The `Widget::render` implementation for `&App` (app.rs lines 111-205):
too-small areas return immediately painting nothing; Help mode paints only
the help screen; otherwise `contig_length()`, `viewing_window()` and
`viewing_region()` are unwrapped (a panic when absent) and the bands are
painted in source order, ending with the error band. -/
def render (maxZoom : Nat) (s : State) (area : Rect) : Except Panic (List Band) :=
  if area.width < MIN_AREA_WIDTH ∨ area.height < MIN_AREA_HEIGHT then
    Except.ok []
  else if s.input_mode = InputMode.help then
    Except.ok [Band.help]
  else
    match s.contig_length, s.viewing_window, s.viewing_region with
    | some _, some w, some _ =>
        match cytobandBands s with
        | Except.error p => Except.error p
        | Except.ok cyto =>
            Except.ok (cyto ++ [Band.coordinates] ++ alignmentBands maxZoom s w
              ++ referenceBands s w ++ consoleBands s ++ [Band.error])
    | _, _, _ => Except.error Panic.state_unwrap

/-- The method `App::draw` (app.rs lines 96-101): panics when the state is not
initialized, otherwise renders the widget over the frame area. -/
def draw (maxZoom : Nat) (s : State) (area : Rect) : Except Panic (List Band) :=
  if !s.initialized then Except.error Panic.uninitialized_draw
  else render maxZoom s area

/-- The render call as a state transition: `Widget::render` takes `&App`
(an immutable borrow), so the controller state after the call is the input
state; the call's only products are the painted bands (or a panic). -/
def renderStep (maxZoom : Nat) (s : State) (area : Rect) :
    State × Except Panic (List Band) :=
  (s, render maxZoom s area)

/-- The draw call as a state transition: `App::draw` takes `&self`, so the
controller state after the call is the input state. -/
def drawStep (maxZoom : Nat) (s : State) (area : Rect) :
    State × Except Panic (List Band) :=
  (s, draw maxZoom s area)

/-! ## Membership lemmas for the render band lists -/

theorem mem_cytobandBands {s : State} {cyto : List Band}
    (h : cytobandBands s = Except.ok cyto) {b : Band} (hb : b ∈ cyto) :
    b = Band.cytobands := by
  unfold cytobandBands at h
  split at h
  · exact Except.noConfusion h
  · split at h
    · split at h
      · simp only [Except.ok.injEq] at h
        subst h
        simpa using hb
      · exact Except.noConfusion h
    · simp only [Except.ok.injEq] at h
      subst h
      simp at hb

theorem mem_alignmentBands {mz : Nat} {s : State} {w : ViewingWindow} {b : Band}
    (hb : b ∈ alignmentBands mz s w) :
    (b = Band.coverage ∨ b = Band.alignment) ∧ s.settings.bam_path.isSome = true
    ∧ w.zoom ≤ mz ∧ s.data.alignment ≠ none := by
  unfold alignmentBands at hb
  split at hb
  · rename_i hcond
    split at hb
    · rename_i a ha
      simp only [List.mem_cons, List.not_mem_nil, or_false] at hb
      exact ⟨hb, hcond.1, hcond.2, by simp [ha]⟩
    · simp at hb
  · simp at hb

theorem mem_sequenceBands {s : State} {w : ViewingWindow} {b : Band}
    (hb : b ∈ sequenceBands s w) :
    s.data.sequence ≠ none
    ∧ ((b = Band.sequence ∧ w.basewise = true)
      ∨ (b = Band.sequence2x ∧ w.basewise = false ∧ w.zoom = 2)) := by
  unfold sequenceBands at hb
  split at hb
  · rename_i hbw
    split at hb
    · rename_i a ha
      simp only [List.mem_singleton] at hb
      exact ⟨by simp [ha], Or.inl ⟨hb, hbw⟩⟩
    · simp at hb
  · rename_i hbw
    split at hb
    · rename_i hz
      split at hb
      · rename_i a ha
        simp only [List.mem_singleton] at hb
        exact ⟨by simp [ha], Or.inr ⟨hb, by simpa using hbw, hz⟩⟩
      · simp at hb
    · simp at hb

theorem mem_trackBands {s : State} {b : Band} (hb : b ∈ trackBands s) :
    b = Band.track ∧ s.data.track ≠ none := by
  unfold trackBands at hb
  split at hb
  · rename_i a ha
    exact ⟨by simpa using hb, by simp [ha]⟩
  · simp at hb

theorem mem_referenceBands {s : State} {w : ViewingWindow} {b : Band}
    (hb : b ∈ referenceBands s w) :
    s.settings.reference.isSome = true
    ∧ (b ∈ sequenceBands s w ∨ b ∈ trackBands s) := by
  unfold referenceBands at hb
  split at hb
  · rename_i h
    simp only [List.mem_append] at hb
    exact ⟨h, hb⟩
  · simp at hb

theorem mem_consoleBands {s : State} {b : Band} (hb : b ∈ consoleBands s) :
    b = Band.console := by
  unfold consoleBands at hb
  split at hb
  · simpa using hb
  · simp at hb

/-- Structural source of any band a successful render painted: one of the
fixed bands, or a zoom/data-gated band from the alignment or reference
blocks under the matched viewing window. -/
theorem render_ok_mem {mz : Nat} {s : State} {area : Rect} {bands : List Band}
    (hr : render mz s area = Except.ok bands) {b : Band} (hb : b ∈ bands) :
    b = Band.help ∨ b = Band.cytobands ∨ b = Band.coordinates ∨ b = Band.console
    ∨ b = Band.error
    ∨ ∃ w, s.viewing_window = some w
        ∧ (b ∈ alignmentBands mz s w ∨ b ∈ referenceBands s w) := by
  unfold render at hr
  split at hr
  · simp only [Except.ok.injEq] at hr
    subst hr
    simp at hb
  · split at hr
    · simp only [Except.ok.injEq] at hr
      subst hr
      simp only [List.mem_singleton] at hb
      exact Or.inl hb
    · split at hr
      · rename_i cl w vr hcl hvw hvr
        split at hr
        · exact Except.noConfusion hr
        · rename_i cyto hcyto
          simp only [Except.ok.injEq] at hr
          subst hr
          simp only [List.mem_append, List.mem_singleton] at hb
          rcases hb with ((((hb | hb) | hb) | hb) | hb) | hb
          · exact Or.inr (Or.inl (mem_cytobandBands hcyto hb))
          · exact Or.inr (Or.inr (Or.inl hb))
          · exact Or.inr (Or.inr (Or.inr (Or.inr (Or.inr ⟨w, hvw, Or.inl hb⟩))))
          · exact Or.inr (Or.inr (Or.inr (Or.inr (Or.inr ⟨w, hvw, Or.inr hb⟩))))
          · exact Or.inr (Or.inr (Or.inr (Or.inl (mem_consoleBands hb))))
          · exact Or.inr (Or.inr (Or.inr (Or.inr (Or.inl hb))))
      · exact Except.noConfusion hr

/-- The alignment band can only come from the alignment block. -/
theorem alignment_band_source {mz : Nat} {s : State} {area : Rect}
    {bands : List Band} (hr : render mz s area = Except.ok bands)
    (h : Band.alignment ∈ bands) :
    ∃ w, s.viewing_window = some w ∧ Band.alignment ∈ alignmentBands mz s w := by
  rcases render_ok_mem hr h with h1 | h1 | h1 | h1 | h1 | ⟨w, hw, h1 | h1⟩
  · exact absurd h1 (by decide)
  · exact absurd h1 (by decide)
  · exact absurd h1 (by decide)
  · exact absurd h1 (by decide)
  · exact absurd h1 (by decide)
  · exact ⟨w, hw, h1⟩
  · rcases mem_referenceBands h1 with ⟨_, h2 | h2⟩
    · rcases mem_sequenceBands h2 with ⟨_, ⟨h3, _⟩ | ⟨h3, _⟩⟩ <;> exact absurd h3 (by decide)
    · exact absurd (mem_trackBands h2).1 (by decide)

/-- The coverage band can only come from the alignment block. -/
theorem coverage_band_source {mz : Nat} {s : State} {area : Rect}
    {bands : List Band} (hr : render mz s area = Except.ok bands)
    (h : Band.coverage ∈ bands) :
    ∃ w, s.viewing_window = some w ∧ Band.coverage ∈ alignmentBands mz s w := by
  rcases render_ok_mem hr h with h1 | h1 | h1 | h1 | h1 | ⟨w, hw, h1 | h1⟩
  · exact absurd h1 (by decide)
  · exact absurd h1 (by decide)
  · exact absurd h1 (by decide)
  · exact absurd h1 (by decide)
  · exact absurd h1 (by decide)
  · exact ⟨w, hw, h1⟩
  · rcases mem_referenceBands h1 with ⟨_, h2 | h2⟩
    · rcases mem_sequenceBands h2 with ⟨_, ⟨h3, _⟩ | ⟨h3, _⟩⟩ <;> exact absurd h3 (by decide)
    · exact absurd (mem_trackBands h2).1 (by decide)

/-- The sequence band can only come from the reference-gated sequence block. -/
theorem sequence_band_source {mz : Nat} {s : State} {area : Rect}
    {bands : List Band} (hr : render mz s area = Except.ok bands)
    (h : Band.sequence ∈ bands) :
    ∃ w, s.viewing_window = some w ∧ s.settings.reference.isSome = true
      ∧ Band.sequence ∈ sequenceBands s w := by
  rcases render_ok_mem hr h with h1 | h1 | h1 | h1 | h1 | ⟨w, hw, h1 | h1⟩
  · exact absurd h1 (by decide)
  · exact absurd h1 (by decide)
  · exact absurd h1 (by decide)
  · exact absurd h1 (by decide)
  · exact absurd h1 (by decide)
  · rcases (mem_alignmentBands h1).1 with h2 | h2 <;> exact absurd h2 (by decide)
  · rcases mem_referenceBands h1 with ⟨href, h2 | h2⟩
    · exact ⟨w, hw, href, h2⟩
    · exact absurd (mem_trackBands h2).1 (by decide)

/-- The 2x sequence band can only come from the reference-gated sequence
block. -/
theorem sequence2x_band_source {mz : Nat} {s : State} {area : Rect}
    {bands : List Band} (hr : render mz s area = Except.ok bands)
    (h : Band.sequence2x ∈ bands) :
    ∃ w, s.viewing_window = some w ∧ s.settings.reference.isSome = true
      ∧ Band.sequence2x ∈ sequenceBands s w := by
  rcases render_ok_mem hr h with h1 | h1 | h1 | h1 | h1 | ⟨w, hw, h1 | h1⟩
  · exact absurd h1 (by decide)
  · exact absurd h1 (by decide)
  · exact absurd h1 (by decide)
  · exact absurd h1 (by decide)
  · exact absurd h1 (by decide)
  · rcases (mem_alignmentBands h1).1 with h2 | h2 <;> exact absurd h2 (by decide)
  · rcases mem_referenceBands h1 with ⟨href, h2 | h2⟩
    · exact ⟨w, hw, href, h2⟩
    · exact absurd (mem_trackBands h2).1 (by decide)

/-- The track band can only come from the reference-gated track block. -/
theorem track_band_source {mz : Nat} {s : State} {area : Rect}
    {bands : List Band} (hr : render mz s area = Except.ok bands)
    (h : Band.track ∈ bands) :
    s.settings.reference.isSome = true ∧ s.data.track ≠ none := by
  rcases render_ok_mem hr h with h1 | h1 | h1 | h1 | h1 | ⟨w, hw, h1 | h1⟩
  · exact absurd h1 (by decide)
  · exact absurd h1 (by decide)
  · exact absurd h1 (by decide)
  · exact absurd h1 (by decide)
  · exact absurd h1 (by decide)
  · rcases (mem_alignmentBands h1).1 with h2 | h2 <;> exact absurd h2 (by decide)
  · rcases mem_referenceBands h1 with ⟨href, h2 | h2⟩
    · rcases mem_sequenceBands h2 with ⟨_, ⟨h3, _⟩ | ⟨h3, _⟩⟩ <;> exact absurd h3 (by decide)
    · exact ⟨href, (mem_trackBands h2).2⟩

/-! ## Claim theorems about the widget render -/

/-- C4: with a viewing window in place, which data tiers a successful render
paints is gated purely by the zoom value: the plain sequence glyphs only on a
base-wise window, the 2x sequence renderer only at zoom exactly 2, and the
alignment and coverage bands only at zoom at most
MAX_ZOOM_TO_DISPLAY_ALIGNMENTS; above those thresholds the bands are absent. -/
theorem c4_zoom_tier_gating (mz : Nat) (s : State) (area : Rect)
    (w : ViewingWindow) (bands : List Band)
    (hw : s.viewing_window = some w)
    (hr : render mz s area = Except.ok bands) :
    (Band.sequence ∈ bands → w.basewise = true)
    ∧ (Band.sequence2x ∈ bands → w.basewise = false ∧ w.zoom = 2)
    ∧ (Band.alignment ∈ bands → w.zoom ≤ mz)
    ∧ (Band.coverage ∈ bands → w.zoom ≤ mz)
    ∧ (mz < w.zoom → Band.alignment ∉ bands ∧ Band.coverage ∉ bands)
    ∧ (w.basewise = false → w.zoom ≠ 2 → Band.sequence ∉ bands ∧ Band.sequence2x ∉ bands) := by
  have halign : Band.alignment ∈ bands → w.zoom ≤ mz := by
    intro h
    rcases alignment_band_source hr h with ⟨w', hw', h1⟩
    rw [hw] at hw'
    injection hw' with hww
    subst hww
    exact (mem_alignmentBands h1).2.2.1
  have hcover : Band.coverage ∈ bands → w.zoom ≤ mz := by
    intro h
    rcases coverage_band_source hr h with ⟨w', hw', h1⟩
    rw [hw] at hw'
    injection hw' with hww
    subst hww
    exact (mem_alignmentBands h1).2.2.1
  have hseq : Band.sequence ∈ bands → w.basewise = true := by
    intro h
    rcases sequence_band_source hr h with ⟨w', hw', _, h1⟩
    rw [hw] at hw'
    injection hw' with hww
    subst hww
    rcases mem_sequenceBands h1 with ⟨_, ⟨_, hbw⟩ | ⟨h3, _⟩⟩
    · exact hbw
    · exact absurd h3 (by decide)
  have hseq2 : Band.sequence2x ∈ bands → w.basewise = false ∧ w.zoom = 2 := by
    intro h
    rcases sequence2x_band_source hr h with ⟨w', hw', _, h1⟩
    rw [hw] at hw'
    injection hw' with hww
    subst hww
    rcases mem_sequenceBands h1 with ⟨_, ⟨h3, _⟩ | ⟨_, hbw, hz⟩⟩
    · exact absurd h3 (by decide)
    · exact ⟨hbw, hz⟩
  refine ⟨hseq, hseq2, halign, hcover, ?_, ?_⟩
  · intro hz
    exact ⟨fun h => absurd (halign h) (Nat.not_le_of_lt hz),
      fun h => absurd (hcover h) (Nat.not_le_of_lt hz)⟩
  · intro hbw hz2
    constructor
    · intro h
      rw [hseq h] at hbw
      exact Bool.noConfusion hbw
    · intro h
      exact hz2 (hseq2 h).2

/-- C4 witness data: a base-wise zoom-1 viewing window. -/
def wNormal : ViewingWindow := { start := 0, zoom := 1, basewise := true }

/-- Witness data: a contig context with one cytoband, index 0. -/
def sampleCtx : ContigContext :=
  { length := 1000, cytobands := some ["p11"], current_cytoband_index := some 0 }

/-- Witness data: an initialized state with all sources configured and all
payload slots filled. -/
def sampleState : State :=
  { settings := { test_mode := true, bam_path := some "a.bam", reference := some "hg19" }
    data := { alignment := some payloadG2, sequence := some payloadG2, track := some payloadG2 }
    viewing_window := some wNormal
    contig := some sampleCtx }

/-- Witness data: a comfortably large frame area. -/
def fullArea : Rect := { x := 0, y := 0, width := 80, height := 24 }

/-- Witness data: the bands `render` paints for `sampleState` on `fullArea`. -/
def sampleBands : List Band :=
  [Band.cytobands, Band.coordinates, Band.coverage, Band.alignment,
   Band.sequence, Band.track, Band.error]

/-- C4 witness: the zoom-tier gating theorem applied to the concrete sample
state at maximum alignment zoom 100. -/
theorem c4_zoom_tier_gating_witness :
    sampleState.viewing_window = some wNormal
    ∧ render 100 sampleState fullArea = Except.ok sampleBands
    ∧ ((Band.sequence ∈ sampleBands → wNormal.basewise = true)
      ∧ (Band.sequence2x ∈ sampleBands → wNormal.basewise = false ∧ wNormal.zoom = 2)
      ∧ (Band.alignment ∈ sampleBands → wNormal.zoom ≤ 100)
      ∧ (Band.coverage ∈ sampleBands → wNormal.zoom ≤ 100)
      ∧ (100 < wNormal.zoom → Band.alignment ∉ sampleBands ∧ Band.coverage ∉ sampleBands)
      ∧ (wNormal.basewise = false → wNormal.zoom ≠ 2 →
          Band.sequence ∉ sampleBands ∧ Band.sequence2x ∉ sampleBands)) :=
  ⟨rfl, rfl,
    c4_zoom_tier_gating 100 sampleState fullArea wNormal sampleBands rfl rfl⟩

/-- C5: a render area below 10 columns or below 6 rows makes the widget
render return immediately: the state (and so the error log) is untouched, no
panic is raised, and no band is painted. -/
theorem c5_small_area_noop (mz : Nat) (s : State) (area : Rect)
    (h : area.width < MIN_AREA_WIDTH ∨ area.height < MIN_AREA_HEIGHT) :
    renderStep mz s area = (s, Except.ok []) := by
  unfold renderStep render
  rw [if_pos h]

/-- C5 witness: the small-area theorem applied to a 5-column area. -/
theorem c5_small_area_noop_witness :
    ((⟨0, 0, 5, 50⟩ : Rect).width < MIN_AREA_WIDTH
      ∨ (⟨0, 0, 5, 50⟩ : Rect).height < MIN_AREA_HEIGHT)
    ∧ renderStep 100 sampleState ⟨0, 0, 5, 50⟩ = (sampleState, Except.ok []) :=
  ⟨Or.inl (by decide),
    c5_small_area_noop 100 sampleState ⟨0, 0, 5, 50⟩ (Or.inl (by decide))⟩

/-- C7: `draw` and the widget render take the state by immutable reference:
after one frame the viewing window, payload slots, contig context, input
mode, command register and error log are exactly what they were before. -/
theorem c7_draw_render_immutable (mz : Nat) (s : State) (area : Rect) :
    (renderStep mz s area).1.viewing_window = s.viewing_window
    ∧ (renderStep mz s area).1.data = s.data
    ∧ (renderStep mz s area).1.contig = s.contig
    ∧ (renderStep mz s area).1.input_mode = s.input_mode
    ∧ (renderStep mz s area).1.command_mode_register = s.command_mode_register
    ∧ (renderStep mz s area).1.errors = s.errors
    ∧ (drawStep mz s area).1 = s :=
  ⟨rfl, rfl, rfl, rfl, rfl, rfl, rfl⟩

/-- C10: alignment and coverage are painted only when `bam_path` is set,
sequence and track only when `reference` is set, and a `None` payload slot
means the corresponding band is omitted. -/
theorem c10_band_data_gating (mz : Nat) (s : State) (area : Rect)
    (bands : List Band) (hr : render mz s area = Except.ok bands) :
    ((Band.alignment ∈ bands ∨ Band.coverage ∈ bands) →
      s.settings.bam_path.isSome = true)
    ∧ ((Band.sequence ∈ bands ∨ Band.sequence2x ∈ bands ∨ Band.track ∈ bands) →
      s.settings.reference.isSome = true)
    ∧ (s.data.alignment = none → Band.alignment ∉ bands ∧ Band.coverage ∉ bands)
    ∧ (s.data.sequence = none → Band.sequence ∉ bands ∧ Band.sequence2x ∉ bands)
    ∧ (s.data.track = none → Band.track ∉ bands) := by
  refine ⟨?_, ?_, ?_, ?_, ?_⟩
  · rintro (h | h)
    · rcases alignment_band_source hr h with ⟨w, _, h1⟩
      exact (mem_alignmentBands h1).2.1
    · rcases coverage_band_source hr h with ⟨w, _, h1⟩
      exact (mem_alignmentBands h1).2.1
  · rintro (h | h | h)
    · exact (sequence_band_source hr h).choose_spec.2.1
    · exact (sequence2x_band_source hr h).choose_spec.2.1
    · exact (track_band_source hr h).1
  · intro hno
    constructor
    · intro h
      rcases alignment_band_source hr h with ⟨w, _, h1⟩
      exact (mem_alignmentBands h1).2.2.2 hno
    · intro h
      rcases coverage_band_source hr h with ⟨w, _, h1⟩
      exact (mem_alignmentBands h1).2.2.2 hno
  · intro hno
    constructor
    · intro h
      rcases sequence_band_source hr h with ⟨w, _, _, h1⟩
      exact (mem_sequenceBands h1).1 hno
    · intro h
      rcases sequence2x_band_source hr h with ⟨w, _, _, h1⟩
      exact (mem_sequenceBands h1).1 hno
  · intro hno h
    exact (track_band_source hr h).2 hno

/-- Witness data: the sample state with no BAM path and an empty track slot. -/
def noBamState : State :=
  { sampleState with
    settings := { test_mode := true, bam_path := none, reference := some "hg19" }
    data := { alignment := none, sequence := some payloadG2, track := none } }

/-- Witness data: the bands painted for `noBamState`: no coverage, alignment
or track. -/
def noBamBands : List Band :=
  [Band.cytobands, Band.coordinates, Band.sequence, Band.error]

/-- C10 witness: the data-gating theorem applied to the concrete state with
no BAM path, no alignment payload and no track payload. -/
theorem c10_band_data_gating_witness :
    render 100 noBamState fullArea = Except.ok noBamBands
    ∧ (((Band.alignment ∈ noBamBands ∨ Band.coverage ∈ noBamBands) →
        noBamState.settings.bam_path.isSome = true)
      ∧ ((Band.sequence ∈ noBamBands ∨ Band.sequence2x ∈ noBamBands
          ∨ Band.track ∈ noBamBands) → noBamState.settings.reference.isSome = true)
      ∧ (noBamState.data.alignment = none →
          Band.alignment ∉ noBamBands ∧ Band.coverage ∉ noBamBands)
      ∧ (noBamState.data.sequence = none →
          Band.sequence ∉ noBamBands ∧ Band.sequence2x ∉ noBamBands)
      ∧ (noBamState.data.track = none → Band.track ∉ noBamBands)) :=
  ⟨rfl, c10_band_data_gating 100 noBamState fullArea noBamBands rfl⟩

/-! ## The main loop (app.rs lines 39-93) -/

/-- Key event kinds as in `crossterm::event::KeyEventKind`. -/
inductive KeyEventKind
  | press
  | release
  | rep
deriving DecidableEq, Repr

/-- A key event: its kind and an opaque key code. -/
structure KeyEvent where
  kind : KeyEventKind
  code : Nat
deriving DecidableEq, Repr

/-- Terminal input events: key events, resize notifications, and everything
else the catch-all arm of the match ignores (mouse, focus, paste, read
errors). -/
inductive Event
  | key (k : KeyEvent)
  | resize (w h : Nat)
  | other
deriving DecidableEq, Repr

/-- The terminal, reduced to what `run` observes: the frame area reported by
`terminal.get_frame().area()`. -/
structure Terminal where
  area : Rect
deriving DecidableEq, Repr

/-- A resize event changes the terminal's reported frame size; other events
leave it alone. -/
def updateTerminal (t : Terminal) (e : Event) : Terminal :=
  match e with
  | Event.resize w h => { area := { t.area with width := w, height := h } }
  | _ => t

/-- The controller entry points `run` dispatches into. Their bodies live in
the states module, which is not under src/, so they are parameters of the
loop model. -/
structure StateOps where
  handle : State → List String → Except String State
  handle_key_event : State → KeyEvent → Except String State
  self_correct_viewing_window : State → State

/-- The event dispatch of one loop iteration (app.rs lines 62-71): a key
event is forwarded to `handle_key_event` only when its kind is Press; a
resize notification invokes only `self_correct_viewing_window`; every other
event leaves the state untouched. -/
def handleEvent (ops : StateOps) (s : State) (e : Event) : Except String State :=
  match e with
  | Event.key k =>
      if k.kind = KeyEventKind.press then ops.handle_key_event s k else Except.ok s
  | Event.resize _ _ => Except.ok (ops.self_correct_viewing_window s)
  | Event.other => Except.ok s

/-- The full-screen refresh decision (app.rs lines 75-80): entered or left
Help mode, or the frame width or height changed between the top of the
iteration and after event handling. -/
def needScreenRefresh (lastMode curMode : InputMode) (w h w' h' : Nat) : Bool :=
  (decide (lastMode = InputMode.help) && decide (¬curMode = InputMode.help))
  || (decide (¬lastMode = InputMode.help) && decide (curMode = InputMode.help))
  || decide (¬w = w') || decide (¬h = h')

/-- The possible results of running the loop for a bounded number of
iterations. -/
inductive RunOutcome
  | ok
  | err (e : String)
  | panicked (p : Panic)
  | fuel_out
deriving DecidableEq, Repr

/-- How one loop-body execution ended: the loop halts (error, panic, or the
test-mode break returning Ok), or continues with the carried values. The
three numeric fields are the frames drawn, events read and screen clears of
this iteration. -/
inductive IterOut
  | halt (o : RunOutcome) (s : State) (framesInc readsInc clearsInc : Nat)
  | next (lastMode : InputMode) (s : State) (term : Terminal)
      (framesInc readsInc clearsInc : Nat)

/-- One execution of the loop body (app.rs lines 42-90): record the frame
area, handle the initial state messages when not yet initialized, draw,
read and dispatch one event unless in test mode, decide the full-screen
refresh, remember the frame's mode, and break in test mode. `ev` is the
event `event::read()` would deliver. -/
def loopBody (mz : Nat) (ops : StateOps) (ev : Event) (lastMode : InputMode)
    (s : State) (term : Terminal) : IterOut :=
  let frameArea := term.area
  let s1 := update_frame_area s frameArea
  match (if s1.initialized then Except.ok s1
         else ops.handle s1 s1.settings.initial_state_messages) with
  | Except.error e => IterOut.halt (RunOutcome.err e) s1 0 0 0
  | Except.ok s2 =>
      match draw mz s2 frameArea with
      | Except.error p => IterOut.halt (RunOutcome.panicked p) s2 0 0 0
      | Except.ok _ =>
          if s2.settings.test_mode = true then
            let refresh := needScreenRefresh lastMode s2.input_mode
              frameArea.width frameArea.height term.area.width term.area.height
            IterOut.halt RunOutcome.ok s2 1 0 (if refresh then 1 else 0)
          else
            match handleEvent ops s2 ev with
            | Except.error e => IterOut.halt (RunOutcome.err e) s2 1 1 0
            | Except.ok s3 =>
                let term' := updateTerminal term ev
                let refresh := needScreenRefresh lastMode s3.input_mode
                  frameArea.width frameArea.height term'.area.width term'.area.height
                let ci := if refresh then 1 else 0
                if s3.settings.test_mode = true then
                  IterOut.halt RunOutcome.ok s3 1 1 ci
                else
                  IterOut.next s3.input_mode s3 term' 1 1 ci

/-- An execution trace of `run`: how it ended, how many times the loop body
was entered, frames drawn, events read, screen clears issued, and the final
controller state. -/
structure RunTrace where
  outcome : RunOutcome
  loop_entries : Nat
  frames_drawn : Nat
  events_read : Nat
  clears : Nat
  final_state : State

/-- The `while !self.state.exit` loop of `run`, with a fuel bound on the
number of iterations and the event source as a stream indexed by how many
events have been read. -/
def runLoop (mz : Nat) (ops : StateOps) (stream : Nat → Event) (fuel : Nat)
    (lastMode : InputMode) (s : State) (term : Terminal)
    (entries frames reads clears : Nat) : RunTrace :=
  if s.exit = true then
    ⟨RunOutcome.ok, entries, frames, reads, clears, s⟩
  else
    match fuel with
    | 0 => ⟨RunOutcome.fuel_out, entries, frames, reads, clears, s⟩
    | Nat.succ fuel' =>
        match loopBody mz ops (stream reads) lastMode s term with
        | IterOut.halt o s' fi ri ci =>
            ⟨o, entries + 1, frames + fi, reads + ri, clears + ci, s'⟩
        | IterOut.next lm' s' term' fi ri ci =>
            runLoop mz ops stream fuel' lm' s' term'
              (entries + 1) (frames + fi) (reads + ri) (clears + ci)

/-- The method `App::run` (app.rs line 39): the loop starts with `last_frame_mode`
Normal and fresh counters. -/
def run (mz : Nat) (ops : StateOps) (stream : Nat → Event) (fuel : Nat)
    (s : State) (term : Terminal) : RunTrace :=
  runLoop mz ops stream fuel InputMode.normal s term 0 0 0 0

/-- Modelled from the spec: `State::close` performs an orderly close of all
data-source adapters; the states module is not under src/. -/
def State.close (s : State) : Except String State :=
  Except.ok { s with adapters_closed := true }

/-- The method `App::close` (app.rs lines 104-107) delegates to `State::close`. -/
def App.close (s : State) : Except String State :=
  State.close s

/-- Modelled from the spec: the session drives `run` and then performs the
orderly close of all data-source adapters before terminating (`main.rs` is
not under src/). -/
def session (mz : Nat) (ops : StateOps) (stream : Nat → Event) (fuel : Nat)
    (s : State) (term : Terminal) : RunTrace × Except String State :=
  let t := run mz ops stream fuel s term
  (t, App.close t.final_state)

/-! ## Concrete controllers and states for the loop witnesses -/

/-- Modelled from the spec: a concrete controller instance for witnesses —
`handle` processes the initial messages and establishes the viewing window
and contig context, the other entries keep the state as it is. -/
def specOps : StateOps where
  handle s _ := Except.ok { s with viewing_window := some wNormal, contig := some sampleCtx }
  handle_key_event s _ := Except.ok s
  self_correct_viewing_window s := s

/-- Witness data: a controller whose key handler switches the input mode to
Command. -/
def toCommandOps : StateOps where
  handle s _ := Except.ok s
  handle_key_event s _ := Except.ok { s with input_mode := InputMode.command }
  self_correct_viewing_window s := s

/-- Witness data: an event stream that always delivers a key press. -/
def pressStream : Nat → Event := fun _ => Event.key ⟨KeyEventKind.press, 0⟩

/-- Witness data: the sample state with `test_mode` off, so the loop reads
events. -/
def interactiveState : State :=
  { sampleState with
    settings := { test_mode := false, bam_path := some "a.bam", reference := some "hg19" } }

/-! ## C2: when is terminal.clear issued -/

/-- C2 counterexample: one interactive iteration in which the key handler
switches the input mode from Normal to Command while the frame size is
unchanged issues no full-screen clear, although the input mode changed; the
refresh predicate itself is false at that mode change. -/
theorem c2_mode_change_no_clear_counterexample :
    (run 100 toCommandOps pressStream 1 interactiveState ⟨fullArea⟩).clears = 0
    ∧ (run 100 toCommandOps pressStream 1 interactiveState
        ⟨fullArea⟩).final_state.input_mode = InputMode.command
    ∧ interactiveState.input_mode = InputMode.normal
    ∧ needScreenRefresh InputMode.normal InputMode.command
        fullArea.width fullArea.height fullArea.width fullArea.height = false := by
  refine ⟨?_, ?_, rfl, by decide⟩ <;> rfl

/-- C2 amended: a full-screen clear is issued exactly when the frame's
Help-mode membership changed since the previous frame (the mode entered or
left Help) or the frame width or height changed; a Normal-to-Command or
Command-to-Normal change alone does not trigger a clear. -/
theorem c2_refresh_iff_help_or_size (lastMode curMode : InputMode)
    (w h w' h' : Nat) :
    needScreenRefresh lastMode curMode w h w' h' = true ↔
      ((lastMode = InputMode.help ∧ curMode ≠ InputMode.help)
        ∨ (lastMode ≠ InputMode.help ∧ curMode = InputMode.help)
        ∨ w ≠ w' ∨ h ≠ h') := by
  unfold needScreenRefresh
  simp only [Bool.or_eq_true, Bool.and_eq_true, decide_eq_true_eq]
  tauto

/-! ## C9: event dispatch in the main loop -/

/-- C9: only key events of kind Press reach `handle_key_event`; a resize
invokes only `self_correct_viewing_window`; key releases, key repeats and
every other event leave the state unchanged. -/
theorem c9_event_dispatch (ops : StateOps) (s : State) :
    (∀ k : KeyEvent, k.kind = KeyEventKind.press →
      handleEvent ops s (Event.key k) = ops.handle_key_event s k)
    ∧ (∀ k : KeyEvent, k.kind ≠ KeyEventKind.press →
      handleEvent ops s (Event.key k) = Except.ok s)
    ∧ (∀ w h : Nat, handleEvent ops s (Event.resize w h) =
      Except.ok (ops.self_correct_viewing_window s))
    ∧ handleEvent ops s Event.other = Except.ok s := by
  refine ⟨?_, ?_, fun w h => rfl, rfl⟩
  · intro k hk
    simp [handleEvent, hk]
  · intro k hk
    simp [handleEvent, hk]

/-- C9 witness: the dispatch theorem applied at a concrete press, release,
resize and other event. -/
theorem c9_event_dispatch_witness :
    (handleEvent specOps sampleState (Event.key ⟨KeyEventKind.press, 3⟩)
      = specOps.handle_key_event sampleState ⟨KeyEventKind.press, 3⟩)
    ∧ (handleEvent specOps sampleState (Event.key ⟨KeyEventKind.release, 3⟩)
      = Except.ok sampleState)
    ∧ (handleEvent specOps sampleState (Event.resize 100 40)
      = Except.ok (specOps.self_correct_viewing_window sampleState))
    ∧ handleEvent specOps sampleState Event.other = Except.ok sampleState :=
  ⟨(c9_event_dispatch specOps sampleState).1 ⟨KeyEventKind.press, 3⟩ rfl,
   (c9_event_dispatch specOps sampleState).2.1 ⟨KeyEventKind.release, 3⟩ (by decide),
   (c9_event_dispatch specOps sampleState).2.2.1 100 40,
   (c9_event_dispatch specOps sampleState).2.2.2⟩

/-! ## C3: the uninitialized-draw panic and its unreachability -/

theorem cytobandBands_ne_uninit (s : State) :
    cytobandBands s ≠ Except.error Panic.uninitialized_draw := by
  unfold cytobandBands
  split
  · intro h
    injection h with h'
    exact Panic.noConfusion h'
  · split
    · split
      · intro h
        exact Except.noConfusion h
      · intro h
        injection h with h'
        exact Panic.noConfusion h'
    · intro h
      exact Except.noConfusion h

/-- The widget render never raises the uninitialized-draw panic: that check
lives only in `App::draw`. -/
theorem render_ne_uninit (mz : Nat) (s : State) (area : Rect) :
    render mz s area ≠ Except.error Panic.uninitialized_draw := by
  unfold render
  split
  · intro h
    exact Except.noConfusion h
  · split
    · intro h
      exact Except.noConfusion h
    · split
      · split
        · rename_i hcb
          intro h
          injection h with h'
          subst h'
          exact cytobandBands_ne_uninit s hcb
        · intro h
          exact Except.noConfusion h
      · intro h
        injection h with h'
        exact Panic.noConfusion h'

/-- On an initialized state, `draw` is the widget render. -/
theorem draw_initialized (mz : Nat) (s : State) (area : Rect)
    (h : s.initialized = true) : draw mz s area = render mz s area := by
  unfold draw
  rw [h]
  rfl

/-- Any halting execution of the loop body halts with something other than
the uninitialized-draw panic, provided `handle` establishes initialization. -/
theorem loopBody_halt_no_uninit {mz : Nat} {ops : StateOps} {ev : Event}
    {lastMode : InputMode} {s : State} {term : Terminal}
    {o : RunOutcome} {s' : State} {fi ri ci : Nat}
    (hh : ∀ t msgs t', ops.handle t msgs = Except.ok t' → t'.initialized = true)
    (hlb : loopBody mz ops ev lastMode s term = IterOut.halt o s' fi ri ci) :
    o ≠ RunOutcome.panicked Panic.uninitialized_draw := by
  simp only [loopBody] at hlb
  split at hlb
  · injection hlb with h1 h2 h3 h4 h5
    subst h1
    simp
  · rename_i s2 hs2
    have hinit : s2.initialized = true := by
      by_cases hi : (update_frame_area s term.area).initialized = true
      · rw [if_pos hi] at hs2
        injection hs2 with h
        subst h
        exact hi
      · rw [if_neg hi] at hs2
        exact hh _ _ _ hs2
    split at hlb
    · rename_i p hp
      injection hlb with h1 h2 h3 h4 h5
      subst h1
      intro hcontra
      injection hcontra with hp'
      subst hp'
      rw [draw_initialized _ _ _ hinit] at hp
      exact render_ne_uninit _ _ _ hp
    · split at hlb
      · injection hlb with h1 h2 h3 h4 h5
        subst h1
        simp
      · split at hlb
        · injection hlb with h1 h2 h3 h4 h5
          subst h1
          simp
        · split at hlb
          · injection hlb with h1 h2 h3 h4 h5
            subst h1
            simp
          · exact IterOut.noConfusion hlb

/-- C3: calling draw on an uninitialized state panics with the
uninitialized-draw contract violation, and in `run` the initial state
messages are handled before the draw of the iteration whenever the state is
not initialized, so no execution of the loop ends in that panic as long as
`handle` establishes initialization. -/
theorem c3_uninitialized_draw_unreachable :
    (∀ (mz : Nat) (t : State) (area : Rect), t.initialized = false →
      draw mz t area = Except.error Panic.uninitialized_draw)
    ∧ (∀ (mz : Nat) (ops : StateOps) (stream : Nat → Event) (fuel : Nat)
        (lastMode : InputMode) (s : State) (term : Terminal)
        (entries frames reads clears : Nat),
        (∀ t msgs t', ops.handle t msgs = Except.ok t' → t'.initialized = true) →
        (runLoop mz ops stream fuel lastMode s term
          entries frames reads clears).outcome
          ≠ RunOutcome.panicked Panic.uninitialized_draw) := by
  constructor
  · intro mz t area h
    unfold draw
    rw [h]
    rfl
  · intro mz ops stream fuel
    induction fuel with
    | zero =>
        intro lastMode s term e f r c hh
        by_cases hx : s.exit = true <;> simp [runLoop, hx]
    | succ n ih =>
        intro lastMode s term e f r c hh
        by_cases hx : s.exit = true
        · simp [runLoop, hx]
        · rw [runLoop, if_neg hx]
          rcases hlb : loopBody mz ops (stream r) lastMode s term with
            ⟨o, s', fi, ri, ci⟩ | ⟨lm', s', term', fi, ri, ci⟩
          · exact loopBody_halt_no_uninit hh hlb
          · exact ih lm' s' term' (e + 1) (f + fi) (r + ri) (c + ci) hh

/-- C3 witness data: a completely fresh, uninitialized state. -/
def emptyState : State := {}

/-- C3 witness: an uninitialized draw panics at a concrete state, and a
concrete three-iteration run under the spec controller never reaches that
panic. -/
theorem c3_uninitialized_draw_unreachable_witness :
    emptyState.initialized = false
    ∧ draw 100 emptyState fullArea = Except.error Panic.uninitialized_draw
    ∧ (runLoop 100 specOps (fun _ => Event.other) 3 InputMode.normal
        emptyState ⟨fullArea⟩ 0 0 0 0).outcome
        ≠ RunOutcome.panicked Panic.uninitialized_draw :=
  ⟨rfl,
   c3_uninitialized_draw_unreachable.1 100 emptyState fullArea rfl,
   c3_uninitialized_draw_unreachable.2 100 specOps (fun _ => Event.other) 3
     InputMode.normal emptyState ⟨fullArea⟩ 0 0 0 0
     (fun t msgs t' h => by
       injection h with h'
       subst h'
       rfl)⟩

/-! ## C6: test mode runs one iteration; interactive mode reads one event
per iteration -/

/-- The cytoband index, when both it and the cytoband list are present, is
in bounds — the well-formedness that makes the indexing in the cytoband
block safe. -/
def cytoSafe (s : State) : Bool :=
  match s.contig with
  | none => true
  | some ctx =>
      match ctx.cytobands, ctx.current_cytoband_index with
      | some cbs, some i => decide (i < cbs.length)
      | _, _ => true

/-- A state on which the draw of an iteration cannot panic: either not yet
initialized (the loop handles the initial messages first) or cytoband-safe. -/
def drawReady (s : State) : Bool :=
  !s.initialized || cytoSafe s

/-- A controller that honours the spec's contracts: `handle` processes all
initial messages without aborting and establishes an initialized, safe state
without touching the settings, and the event handlers preserve readiness. -/
structure GoodOps (ops : StateOps) : Prop where
  handle_good : ∀ t msgs, ∃ t', ops.handle t msgs = Except.ok t'
    ∧ t'.initialized = true ∧ cytoSafe t' = true ∧ t'.settings = t.settings
  key_ready : ∀ t k t', drawReady t = true →
    ops.handle_key_event t k = Except.ok t' → drawReady t' = true
  scv_ready : ∀ t, drawReady t = true →
    drawReady (ops.self_correct_viewing_window t) = true

theorem cytobandBands_ok {s : State} (ctx : ContigContext)
    (hctx : s.contig = some ctx) (hsafe : cytoSafe s = true) :
    ∃ cyto, cytobandBands s = Except.ok cyto := by
  have hsafe' : (match ctx.cytobands, ctx.current_cytoband_index with
      | some cbs, some i => decide (i < cbs.length)
      | _, _ => true) = true := by
    have h := hsafe
    unfold cytoSafe at h
    rw [hctx] at h
    exact h
  rcases hcb : ctx.cytobands with _ | cbs <;>
    rcases hidx : ctx.current_cytoband_index with _ | i
  · exact ⟨[], by simp [cytobandBands, State.current_cytoband_index,
      State.cytobands, hctx, hcb, hidx]⟩
  · exact ⟨[], by simp [cytobandBands, State.current_cytoband_index,
      State.cytobands, hctx, hcb, hidx]⟩
  · exact ⟨[], by simp [cytobandBands, State.current_cytoband_index,
      State.cytobands, hctx, hcb, hidx]⟩
  · rw [hcb, hidx] at hsafe'
    exact ⟨[Band.cytobands], by simp [cytobandBands, State.current_cytoband_index,
      State.cytobands, hctx, hcb, hidx, of_decide_eq_true hsafe']⟩

/-- An initialized, cytoband-safe state renders without panicking. -/
theorem render_ok_of_ready (mz : Nat) {s : State} (area : Rect)
    (hi : s.initialized = true) (hc : cytoSafe s = true) :
    ∃ bs, render mz s area = Except.ok bs := by
  unfold render
  by_cases hsmall : area.width < MIN_AREA_WIDTH ∨ area.height < MIN_AREA_HEIGHT
  · rw [if_pos hsmall]
    exact ⟨[], rfl⟩
  · rw [if_neg hsmall]
    by_cases hm : s.input_mode = InputMode.help
    · rw [if_pos hm]
      exact ⟨[Band.help], rfl⟩
    · rw [if_neg hm]
      have hvw : ∃ w, s.viewing_window = some w := by
        unfold State.initialized at hi
        rcases h : s.viewing_window with _ | w
        · rw [h] at hi
          simp at hi
        · exact ⟨w, rfl⟩
      have hco : ∃ ctx, s.contig = some ctx := by
        unfold State.initialized at hi
        rcases h : s.contig with _ | ctx
        · rw [h] at hi
          simp at hi
        · exact ⟨ctx, rfl⟩
      rcases hvw with ⟨w, hw⟩
      rcases hco with ⟨ctx, hctx⟩
      have h1 : s.contig_length = some ctx.length := by
        simp [State.contig_length, hctx]
      have h2 : s.viewing_region = some ⟨min w.start ctx.length,
          min (w.start + w.zoom * s.frame_area.width) ctx.length⟩ := by
        simp [State.viewing_region, hctx, hw]
      rw [h1, hw, h2]
      rcases cytobandBands_ok ctx hctx hc with ⟨cyto, hcy⟩
      rw [hcy]
      exact ⟨_, rfl⟩

/-- Event handling preserves draw-readiness under a good controller. -/
theorem handleEvent_ready {ops : StateOps} {s : State} {e : Event} {s' : State}
    (hops : GoodOps ops) (hs : drawReady s = true)
    (h : handleEvent ops s e = Except.ok s') : drawReady s' = true := by
  cases e with
  | key k =>
      simp only [handleEvent] at h
      by_cases hk : k.kind = KeyEventKind.press
      · rw [if_pos hk] at h
        exact hops.key_ready _ _ _ hs h
      · rw [if_neg hk] at h
        injection h with h'
        subst h'
        exact hs
  | resize w h2 =>
      simp only [handleEvent] at h
      injection h with h'
      subst h'
      exact hops.scv_ready _ hs
  | other =>
      simp only [handleEvent] at h
      injection h with h'
      subst h'
      exact hs

/-- Under a good controller, a draw-ready state in test mode makes the loop
body halt with Ok after drawing one frame and reading no event. -/
theorem loopBody_test_mode {mz : Nat} {ops : StateOps} {ev : Event}
    {lastMode : InputMode} {s : State} {term : Terminal}
    (hops : GoodOps ops) (hready : drawReady s = true)
    (ht : s.settings.test_mode = true) :
    ∃ s' ci, loopBody mz ops ev lastMode s term
      = IterOut.halt RunOutcome.ok s' 1 0 ci := by
  simp only [loopBody]
  by_cases hi : (update_frame_area s term.area).initialized = true
  · rw [if_pos hi]
    have hc : cytoSafe (update_frame_area s term.area) = true := by
      unfold drawReady at hready
      rw [show (update_frame_area s term.area).initialized = s.initialized from rfl] at hi
      rw [hi] at hready
      simpa using hready
    rcases render_ok_of_ready mz term.area hi hc with ⟨bs, hbs⟩
    dsimp only
    rw [draw_initialized _ _ _ hi, hbs]
    dsimp only
    rw [if_pos (show (update_frame_area s term.area).settings.test_mode = true from ht)]
    exact ⟨_, _, rfl⟩
  · rw [if_neg hi]
    rcases hops.handle_good (update_frame_area s term.area)
      (update_frame_area s term.area).settings.initial_state_messages with
      ⟨t', ht', hinit', hsafe', hset'⟩
    rw [ht']
    rcases render_ok_of_ready mz term.area hinit' hsafe' with ⟨bs, hbs⟩
    dsimp only
    rw [draw_initialized _ _ _ hinit', hbs]
    dsimp only
    have htm : t'.settings.test_mode = true := by
      rw [hset']
      exact ht
    rw [if_pos htm]
    exact ⟨_, _, rfl⟩

/-- Under a good controller, a draw-ready interactive-mode state makes the
loop body either halt or continue having drawn one frame and read exactly
one event; on continuation the carried state is again draw-ready and still
interactive. -/
theorem loopBody_interactive {mz : Nat} {ops : StateOps} {ev : Event}
    {lastMode : InputMode} {s : State} {term : Terminal}
    (hops : GoodOps ops) (hready : drawReady s = true)
    (hf : s.settings.test_mode = false) :
    (∃ o s' ci, loopBody mz ops ev lastMode s term = IterOut.halt o s' 1 1 ci)
    ∨ (∃ lm' s' term' ci, loopBody mz ops ev lastMode s term
        = IterOut.next lm' s' term' 1 1 ci
        ∧ drawReady s' = true ∧ s'.settings.test_mode = false) := by
  simp only [loopBody]
  have hstep : ∃ s2, (if (update_frame_area s term.area).initialized = true
        then Except.ok (update_frame_area s term.area)
        else ops.handle (update_frame_area s term.area)
          (update_frame_area s term.area).settings.initial_state_messages)
      = Except.ok s2
      ∧ s2.initialized = true ∧ cytoSafe s2 = true
      ∧ s2.settings = s.settings := by
    by_cases hi : (update_frame_area s term.area).initialized = true
    · refine ⟨update_frame_area s term.area, by rw [if_pos hi], hi, ?_, rfl⟩
      unfold drawReady at hready
      rw [show (update_frame_area s term.area).initialized = s.initialized from rfl] at hi
      rw [hi] at hready
      simpa using hready
    · rcases hops.handle_good (update_frame_area s term.area)
        (update_frame_area s term.area).settings.initial_state_messages with
        ⟨t', ht', hinit', hsafe', hset'⟩
      exact ⟨t', by rw [if_neg hi, ht'], hinit', hsafe', hset'⟩
  rcases hstep with ⟨s2, hs2, hinit2, hsafe2, hset2⟩
  rw [hs2]
  dsimp only
  rcases render_ok_of_ready mz term.area hinit2 hsafe2 with ⟨bs, hbs⟩
  rw [draw_initialized _ _ _ hinit2, hbs]
  dsimp only
  have htm2 : s2.settings.test_mode = false := by
    rw [hset2]
    exact hf
  rw [if_neg (by simp [htm2])]
  have hready2 : drawReady s2 = true := by
    unfold drawReady
    rw [hinit2, hsafe2]
    rfl
  rcases hhe : handleEvent ops s2 ev with e' | s3
  · exact Or.inl ⟨_, _, _, rfl⟩
  · dsimp only
    have hready3 : drawReady s3 = true := handleEvent_ready hops hready2 hhe
    by_cases ht3 : s3.settings.test_mode = true
    · rw [if_pos ht3]
      exact Or.inl ⟨_, _, _, rfl⟩
    · rw [if_neg ht3]
      exact Or.inr ⟨_, _, _, _, rfl, hready3, by simpa using ht3⟩

/-- In interactive mode the counters stay balanced: the loop reads exactly
one event per loop-body entry. -/
theorem runLoop_reads_eq_entries {mz : Nat} {ops : StateOps}
    {stream : Nat → Event} (hops : GoodOps ops) :
    ∀ (fuel : Nat) (lastMode : InputMode) (s : State) (term : Terminal)
      (entries frames reads clears : Nat),
    drawReady s = true → s.settings.test_mode = false → reads = entries →
    (runLoop mz ops stream fuel lastMode s term
      entries frames reads clears).events_read
      = (runLoop mz ops stream fuel lastMode s term
        entries frames reads clears).loop_entries := by
  intro fuel
  induction fuel with
  | zero =>
      intro lastMode s term e f r c hready hf hre
      by_cases hx : s.exit = true <;> simp [runLoop, hx, hre]
  | succ n ih =>
      intro lastMode s term e f r c hready hf hre
      by_cases hx : s.exit = true
      · simp [runLoop, hx, hre]
      · rw [runLoop, if_neg hx]
        rcases @loopBody_interactive mz ops (stream r) lastMode s term
            hops hready hf with
          ⟨o, s', ci, hlb⟩ | ⟨lm', s', term', ci, hlb, hready', hf'⟩
        · rw [hlb]
          simpa using hre
        · rw [hlb]
          exact ih lm' s' term' (e + 1) (f + 1) (r + 1) (c + ci)
            hready' hf' (by omega)

/-- C6: with the spec's controller contracts, test mode performs exactly one
loop iteration — one frame drawn, no event read — and returns Ok; with test
mode off, every loop iteration reads exactly one terminal input event. -/
theorem c6_test_mode_iterations (mz : Nat) (ops : StateOps)
    (stream : Nat → Event) (fuel : Nat) (s : State) (term : Terminal)
    (hops : GoodOps ops) (hready : drawReady s = true) :
    (s.exit = false → s.settings.test_mode = true → 0 < fuel →
      (run mz ops stream fuel s term).outcome = RunOutcome.ok
      ∧ (run mz ops stream fuel s term).loop_entries = 1
      ∧ (run mz ops stream fuel s term).frames_drawn = 1
      ∧ (run mz ops stream fuel s term).events_read = 0)
    ∧ (s.settings.test_mode = false →
      (run mz ops stream fuel s term).events_read
        = (run mz ops stream fuel s term).loop_entries) := by
  constructor
  · intro hexit ht hfuel
    cases fuel with
    | zero => exact absurd hfuel (by omega)
    | succ n =>
        have hx : ¬s.exit = true := by simp [hexit]
        unfold run
        rw [runLoop.eq_def, if_neg hx]
        dsimp only
        rcases @loopBody_test_mode mz ops (stream 0) InputMode.normal s term
            hops hready ht with
          ⟨s', ci, hlb⟩
        rw [hlb]
        exact ⟨rfl, rfl, rfl, rfl⟩
  · intro hf
    exact runLoop_reads_eq_entries hops fuel InputMode.normal s term
      0 0 0 0 hready hf rfl

/-- The spec controller honours the good-controller contracts. -/
theorem specOps_good : GoodOps specOps := by
  constructor
  · intro t msgs
    exact ⟨_, rfl, rfl, rfl, rfl⟩
  · intro t k t' hd h
    injection h with h'
    subst h'
    exact hd
  · intro t hd
    exact hd

/-- C6 witness: one concrete test-mode run under the spec controller, plus
the reads-per-iteration equality holding vacuously for its test-mode state. -/
theorem c6_test_mode_iterations_witness :
    sampleState.exit = false ∧ sampleState.settings.test_mode = true
    ∧ 0 < 1 ∧ drawReady sampleState = true
    ∧ ((sampleState.exit = false → sampleState.settings.test_mode = true →
        0 < 1 →
        (run 100 specOps (fun _ => Event.other) 1 sampleState
          ⟨fullArea⟩).outcome = RunOutcome.ok
        ∧ (run 100 specOps (fun _ => Event.other) 1 sampleState
          ⟨fullArea⟩).loop_entries = 1
        ∧ (run 100 specOps (fun _ => Event.other) 1 sampleState
          ⟨fullArea⟩).frames_drawn = 1
        ∧ (run 100 specOps (fun _ => Event.other) 1 sampleState
          ⟨fullArea⟩).events_read = 0)
      ∧ (sampleState.settings.test_mode = false →
        (run 100 specOps (fun _ => Event.other) 1 sampleState
          ⟨fullArea⟩).events_read
          = (run 100 specOps (fun _ => Event.other) 1 sampleState
            ⟨fullArea⟩).loop_entries)) :=
  ⟨rfl, rfl, by omega, rfl,
    c6_test_mode_iterations 100 specOps (fun _ => Event.other) 1 sampleState
      ⟨fullArea⟩ specOps_good rfl⟩

/-! ## C8: the exit flag and the orderly close -/

/-- C8: once the exit flag is set, `run` returns Ok at the next
loop-condition check — no loop entry, no frame, no event, no clear, state
untouched — and the session's close then marks every data-source adapter
closed before terminating. -/
theorem c8_exit_then_close (mz : Nat) (ops : StateOps) (stream : Nat → Event)
    (fuel : Nat) (s : State) (term : Terminal) (h : s.exit = true) :
    run mz ops stream fuel s term
      = ⟨RunOutcome.ok, 0, 0, 0, 0, s⟩
    ∧ (session mz ops stream fuel s term).2
      = Except.ok { s with adapters_closed := true }
    ∧ ({ s with adapters_closed := true } : State).adapters_closed = true := by
  have h1 : run mz ops stream fuel s term = ⟨RunOutcome.ok, 0, 0, 0, 0, s⟩ := by
    unfold run
    rw [runLoop.eq_def, if_pos h]
  refine ⟨h1, ?_, rfl⟩
  simp [session, App.close, State.close, h1]

/-- C8 witness data: the sample state with the exit flag set. -/
def exitState : State := { sampleState with exit := true }

/-- C8 witness: the exit theorem applied to the concrete exiting state. -/
theorem c8_exit_then_close_witness :
    exitState.exit = true
    ∧ (run 100 specOps (fun _ => Event.other) 5 exitState ⟨fullArea⟩
        = ⟨RunOutcome.ok, 0, 0, 0, 0, exitState⟩
      ∧ (session 100 specOps (fun _ => Event.other) 5 exitState ⟨fullArea⟩).2
        = Except.ok { exitState with adapters_closed := true }
      ∧ ({ exitState with adapters_closed := true } : State).adapters_closed = true) :=
  ⟨rfl, c8_exit_then_close 100 specOps (fun _ => Event.other) 5 exitState
    ⟨fullArea⟩ rfl⟩

end Tgv
